import Mathlib

/-!
Verification of the protocol-status comparison dashboard
(`analise_protocolos_dashboard.py`).

Strings are modelled as lists of Unicode code points (`List Nat`); a missing
cell (pandas `NaN`) is `none`, a present cell is `some s`.  The two data
frames handled by the program are lists of two-column records mirroring the
(PROTOCOLO, STATUS) layout produced by `carregar_dados_upload`.
-/

namespace AnaliseProtocolos

/-- A string literal as the list of code points of its characters. -/
def encode (s : String) : List Nat := s.data.map Char.toNat

/-- Whitespace code points removed by Python `str.strip`
(space, tab, LF, VT, FF, CR). -/
def isSpaceNat (n : Nat) : Bool :=
  n == 32 || n == 9 || n == 10 || n == 11 || n == 12 || n == 13

/-- Python `str.upper` on a single code point (the data handled by the
dashboard is ASCII, so only the ASCII letters are mapped). -/
def upChar (n : Nat) : Nat := if 97 ≤ n ∧ n ≤ 122 then n - 32 else n

/-- Remove leading whitespace. -/
def lstrip (s : List Nat) : List Nat := s.dropWhile isSpaceNat

/-- Remove trailing whitespace. -/
def rstrip (s : List Nat) : List Nat := (s.reverse.dropWhile isSpaceNat).reverse

/-- Python `str.strip`: remove leading and trailing whitespace. -/
def strip (s : List Nat) : List Nat := rstrip (lstrip s)

/-- Python `str.upper`. -/
def upper (s : List Nat) : List Nat := s.map upChar

/-- One row of a two-column frame as returned by the loader: `identifier`
models the PROTOCOLO cell, `status` the status cell; `none` models a pandas
`NaN` (missing cell). -/
structure RawRecord where
  identifier : Option (List Nat)
  status : Option (List Nat)
deriving DecidableEq

/-- One row of the merged frame (line 74 of the source): the join key and the
two status columns STATUS_ALGAR and STATUS_AG. -/
structure JoinedRecord where
  identifier : Option (List Nat)
  status_algar : Option (List Nat)
  status_ag : Option (List Nat)
deriving DecidableEq

/-- One row of the two result frames (lines 82-83 of the source), which select
the columns PROTOCOLO, STATUS_ALGAR, STATUS_AG. -/
structure OutRecord where
  identifier : List Nat
  status_algar : List Nat
  status_ag : List Nat
deriving DecidableEq

/-- Lines 69-71: `.str.strip().str.upper()` applied to one present cell. -/
def normalizeCell (s : List Nat) : List Nat := upper (strip s)

/-- Net effect of lines 68-71 on a present PROTOCOLO cell:
`astype(str).str.strip()` (line 68) followed by the per-column
`.str.strip().str.upper()` pass (lines 69-71). -/
def cleanIdent (s : List Nat) : List Nat := normalizeCell (strip s)

/-- Lines 62-63: `dropna(subset=[PROTOCOLO])` removes exactly the rows whose
identifier cell is missing (`NaN`); present cells, even empty strings, stay. -/
def dropnaProtocolo (df : List RawRecord) : List RawRecord :=
  df.filter (fun r => r.identifier.isSome)

/-- Lines 67-71 applied to one surviving row: both textual columns are
stripped and uppercased; a missing status stays missing, since the pandas
`.str` accessor maps `NaN` to `NaN`. -/
def cleanRecord (r : RawRecord) : RawRecord :=
  { identifier := r.identifier.map cleanIdent, status := r.status.map normalizeCell }

/-- Lines 62-71: the cleaning `processar_e_comparar` performs, in place, on
each of its two input frames. -/
def limpar (df : List RawRecord) : List RawRecord :=
  (dropnaProtocolo df).map cleanRecord

/-- Line 74: `pd.merge(df_algar, df_data, on=PROTOCOLO, how=inner)`.  Every
left row is paired with every right row carrying an equal key, in left-major
order, which is the order pandas produces for an inner merge. -/
def mergeInner (dfAlgar dfData : List RawRecord) : List JoinedRecord :=
  (dfAlgar.map (fun ra =>
    (dfData.filter (fun rd => decide (rd.identifier = ra.identifier))).map
      (fun rd =>
        { identifier := ra.identifier
          status_algar := ra.status
          status_ag := rd.status }))).flatten

/-- Line 75: `dropna` on the two status columns of the merged frame: rows
with a missing (`NaN`) status on either side are removed. -/
def dropnaStatus (m : List JoinedRecord) : List JoinedRecord :=
  m.filter (fun j => j.status_algar.isSome && j.status_ag.isSome)

/-- Lines 62-75 composed: the merged-and-cleaned frame from which the
classification of lines 78-83 starts. -/
def joinedValid (dfAlgar dfData : List RawRecord) : List JoinedRecord :=
  dropnaStatus (mergeInner (limpar dfAlgar) (limpar dfData))

def FECHADO : List Nat := encode ("FECHADO")

def INSTALADO : List Nat := encode ("INSTALADO")

/-- Lines 78-79: `Series.replace(FECHADO, INSTALADO)` rewrites exactly the
cells whose full value is FECHADO. -/
def replaceFechado (s : List Nat) : List Nat := if s = FECHADO then INSTALADO else s

/-- The STATUS_ALGAR value carried by a merged row (present after line 75). -/
def statusAlgarVal (j : JoinedRecord) : List Nat := j.status_algar.getD []

/-- The STATUS_AG value carried by a merged row (present after line 75). -/
def statusAgVal (j : JoinedRecord) : List Nat := j.status_ag.getD []

/-- Line 81: the divergence mask STATUS_ALGAR_NORM != STATUS_AG_NORM. -/
def divergiu (j : JoinedRecord) : Bool :=
  decide (replaceFechado (statusAlgarVal j) ≠ replaceFechado (statusAgVal j))

/-- Lines 82-83: the reported columns PROTOCOLO, STATUS_ALGAR, STATUS_AG,
i.e. the pre-rewrite (but stripped and uppercased) status strings. -/
def toOut (j : JoinedRecord) : OutRecord :=
  { identifier := j.identifier.getD []
    status_algar := statusAlgarVal j
    status_ag := statusAgVal j }

/-- Lines 56-85, `processar_e_comparar`: returns the pair
(divergent frame, equal frame). -/
def processar_e_comparar (dfAlgar dfData : List RawRecord) :
    List OutRecord × List OutRecord :=
  (((joinedValid dfAlgar dfData).filter (fun j => divergiu j)).map toOut,
   ((joinedValid dfAlgar dfData).filter (fun j => !divergiu j)).map toOut)

/-- `processar_e_comparar` with its in-place side effect made explicit: the
first component is the pair of input frames as the caller sees them after the
call (lines 62-71 mutate them through `inplace=True` and column assignment);
the second component is the returned pair of result frames. -/
def processar_e_comparar_mut (dfAlgar dfData : List RawRecord) :
    (List RawRecord × List RawRecord) × (List OutRecord × List OutRecord) :=
  ((limpar dfAlgar, limpar dfData), processar_e_comparar dfAlgar dfData)

/-- One parsed CSV row, columns at positions 2 and 19 (lines 25-33); `none`
models a missing cell. -/
structure CsvRow where
  col2 : Option (List Nat)
  col19 : Option (List Nat)
deriving DecidableEq

/-- One parsed XLSX row, columns at positions 0 and 3 (lines 39-44). -/
structure XlsxRow where
  col0 : Option (List Nat)
  col3 : Option (List Nat)
deriving DecidableEq

/-- The explanatory error text of line 51. -/
def MSG_ERRO : List Nat :=
  encode ("Ocorreu um erro ao ler os arquivos. Verifique se as planilhas contêm dados nas colunas esperadas (A e D no Excel; C e T no CSV).")

/-- The fixed preamble of the detail text of line 52; the parser error text is
appended to it. -/
def MSG_DETALHE : List Nat := encode ("Detalhe do erro: ")

/-- The error descriptor shown on a load failure (lines 51-52): the
explanatory message and the detail line embedding the low-level parser
error. -/
structure LoadError where
  message : List Nat
  detail : List Nat
deriving DecidableEq

/-- Lines 13-53, `carregar_dados_upload`.  The two pandas parser calls read
external byte streams, so their outcomes are passed in as `Except` values:
the parser either raises with an error text or yields the positionally
extracted rows.  On success the CSV rows become (PROTOCOLO, STATUS_ALGAR) and
the XLSX rows are reordered to (PROTOCOLO, STATUS_AG) (line 46); on any raise
the `except` branch of lines 50-53 reports the error descriptor and returns
`(None, None)`. -/
def carregar_dados_upload (csvOutcome : Except (List Nat) (List CsvRow))
    (xlsxOutcome : Except (List Nat) (List XlsxRow)) :
    Option LoadError × (Option (List RawRecord) × Option (List RawRecord)) :=
  match csvOutcome with
  | Except.error e =>
      (some { message := MSG_ERRO, detail := MSG_DETALHE ++ e }, (none, none))
  | Except.ok csvRows =>
    match xlsxOutcome with
    | Except.error e =>
        (some { message := MSG_ERRO, detail := MSG_DETALHE ++ e }, (none, none))
    | Except.ok xlsxRows =>
        (none,
         (some (csvRows.map (fun r => { identifier := r.col2, status := r.col19 })),
          some (xlsxRows.map (fun r => { identifier := r.col3, status := r.col0 }))))

/-! ### Facts about the string primitives -/

theorem dropWhile_idem (p : Nat → Bool) (l : List Nat) :
    (l.dropWhile p).dropWhile p = l.dropWhile p := by
  induction l with
  | nil => rfl
  | cons a t ih =>
    by_cases h : p a
    · simp [List.dropWhile_cons, h, ih]
    · simp [List.dropWhile_cons, h]

theorem dropWhile_length_le (p : Nat → Bool) (l : List Nat) :
    (l.dropWhile p).length ≤ l.length := by
  induction l with
  | nil => simp
  | cons a t ih =>
    by_cases h : p a
    · simp only [List.dropWhile_cons, h, if_true, List.length_cons]
      omega
    · simp [List.dropWhile_cons, h]

theorem rstrip_append (l : List Nat) : ∃ u, rstrip l ++ u = l := by
  refine ⟨(l.reverse.takeWhile isSpaceNat).reverse, ?_⟩
  have h2 := congrArg List.reverse (List.takeWhile_append_dropWhile isSpaceNat l.reverse)
  rw [List.reverse_append, List.reverse_reverse] at h2
  exact h2

theorem not_isSpaceNat_head (p : Nat → Bool) (a : Nat) (t : List Nat)
    (h : (a :: t).dropWhile p = a :: t) : p a = false := by
  by_cases hp : p a
  · exfalso
    rw [List.dropWhile_cons, if_pos hp] at h
    have h1 := dropWhile_length_le p t
    have h2 := congrArg List.length h
    simp only [List.length_cons] at h2
    omega
  · exact Bool.eq_false_iff.mpr hp

theorem lstrip_rstrip_of_lstrip (l : List Nat) (h : l.dropWhile isSpaceNat = l) :
    (rstrip l).dropWhile isSpaceNat = rstrip l := by
  obtain ⟨u, hu⟩ := rstrip_append l
  cases hr : rstrip l with
  | nil => rfl
  | cons a t =>
    have hl : l = a :: (t ++ u) := by rw [← hu, hr]; simp
    have hfa : isSpaceNat a = false := by
      apply not_isSpaceNat_head isSpaceNat a (t ++ u)
      rw [← hl]
      exact h
    rw [List.dropWhile_cons, hfa]
    simp

theorem lstrip_idem (s : List Nat) : lstrip (lstrip s) = lstrip s :=
  dropWhile_idem isSpaceNat s

theorem rstrip_idem (s : List Nat) : rstrip (rstrip s) = rstrip s := by
  unfold rstrip
  rw [List.reverse_reverse, dropWhile_idem]

theorem lstrip_strip (s : List Nat) : lstrip (strip s) = strip s :=
  lstrip_rstrip_of_lstrip (lstrip s) (lstrip_idem s)

theorem strip_idem (s : List Nat) : strip (strip s) = strip s := by
  show rstrip (lstrip (strip s)) = strip s
  rw [lstrip_strip]
  exact rstrip_idem (lstrip s)

theorem upChar_idem (n : Nat) : upChar (upChar n) = upChar n := by
  unfold upChar
  by_cases h : 97 ≤ n ∧ n ≤ 122
  · rw [if_pos h, if_neg (by omega)]
  · rw [if_neg h, if_neg h]

theorem isSpaceNat_upChar (n : Nat) : isSpaceNat (upChar n) = isSpaceNat n := by
  unfold upChar
  by_cases h : 97 ≤ n ∧ n ≤ 122
  · rw [if_pos h]
    have h1 : isSpaceNat (n - 32) = false := by
      simp only [isSpaceNat, Bool.or_eq_false_iff, beq_eq_false_iff_ne, ne_eq]
      omega
    have h2 : isSpaceNat n = false := by
      simp only [isSpaceNat, Bool.or_eq_false_iff, beq_eq_false_iff_ne, ne_eq]
      omega
    rw [h1, h2]
  · rw [if_neg h]

theorem dropWhile_upper (l : List Nat) :
    (l.map upChar).dropWhile isSpaceNat = (l.dropWhile isSpaceNat).map upChar := by
  induction l with
  | nil => rfl
  | cons a t ih =>
    cases h : isSpaceNat a
    · simp [List.dropWhile_cons, isSpaceNat_upChar, h]
    · simp [List.dropWhile_cons, isSpaceNat_upChar, h, ih]

theorem lstrip_upper (s : List Nat) : lstrip (upper s) = upper (lstrip s) :=
  dropWhile_upper s

theorem rstrip_upper (s : List Nat) : rstrip (upper s) = upper (rstrip s) := by
  unfold rstrip upper
  rw [← List.map_reverse, dropWhile_upper, ← List.map_reverse]

theorem strip_upper (s : List Nat) : strip (upper s) = upper (strip s) := by
  unfold strip
  rw [lstrip_upper, rstrip_upper]

theorem upper_idem (s : List Nat) : upper (upper s) = upper s := by
  unfold upper
  rw [List.map_map]
  exact List.map_congr_left (fun a _ => upChar_idem a)

theorem normalizeCell_idem (s : List Nat) :
    normalizeCell (normalizeCell s) = normalizeCell s := by
  unfold normalizeCell
  rw [strip_upper, upper_idem, strip_idem]

theorem cleanIdent_idem (s : List Nat) : cleanIdent (cleanIdent s) = cleanIdent s := by
  unfold cleanIdent normalizeCell
  rw [strip_idem s, strip_idem (upper (strip s)), strip_upper, strip_idem s, upper_idem]

/-! ### Facts about the cleaning pass -/

theorem cleanRecord_idem (r : RawRecord) : cleanRecord (cleanRecord r) = cleanRecord r := by
  cases r with
  | mk i st =>
    cases i <;> cases st <;>
      simp [cleanRecord, cleanIdent_idem, normalizeCell_idem]

theorem identifier_isSome_cleanRecord (r : RawRecord) (h : r.identifier.isSome) :
    (cleanRecord r).identifier.isSome := by
  cases hi : r.identifier with
  | none => rw [hi] at h; simp at h
  | some v => simp [cleanRecord, hi]

theorem mem_limpar_isSome {df : List RawRecord} {r : RawRecord} (h : r ∈ limpar df) :
    r.identifier.isSome := by
  unfold limpar dropnaProtocolo at h
  obtain ⟨r0, hr0, rfl⟩ := List.mem_map.mp h
  exact identifier_isSome_cleanRecord r0 (List.mem_filter.mp hr0).2

theorem dropnaProtocolo_limpar (df : List RawRecord) :
    dropnaProtocolo (limpar df) = limpar df :=
  List.filter_eq_self.mpr (fun _ hr => mem_limpar_isSome hr)

theorem limpar_idem (df : List RawRecord) : limpar (limpar df) = limpar df := by
  show (dropnaProtocolo (limpar df)).map cleanRecord = limpar df
  rw [dropnaProtocolo_limpar]
  unfold limpar
  rw [List.map_map]
  exact List.map_congr_left (fun r _ => cleanRecord_idem r)

theorem limpar_filter_isSome (df : List RawRecord) :
    limpar (df.filter (fun r => r.identifier.isSome)) = limpar df := by
  unfold limpar dropnaProtocolo
  rw [List.filter_filter]
  simp

/-! ### Facts about the inner merge -/

theorem mergeInner_cons (ra : RawRecord) (a dfData : List RawRecord) :
    mergeInner (ra :: a) dfData
      = (dfData.filter (fun rd => decide (rd.identifier = ra.identifier))).map
          (fun rd =>
            { identifier := ra.identifier
              status_algar := ra.status
              status_ag := rd.status })
        ++ mergeInner a dfData := by
  unfold mergeInner
  rw [List.map_cons, List.flatten_cons]

theorem mem_mergeInner {a d : List RawRecord} {j : JoinedRecord} (h : j ∈ mergeInner a d) :
    ∃ ra, ra ∈ a ∧ ∃ rd, rd ∈ d ∧ rd.identifier = ra.identifier ∧
      j = { identifier := ra.identifier, status_algar := ra.status, status_ag := rd.status } := by
  unfold mergeInner at h
  rw [List.mem_flatten] at h
  obtain ⟨block, hblock, hj⟩ := h
  rw [List.mem_map] at hblock
  obtain ⟨ra, hra, rfl⟩ := hblock
  rw [List.mem_map] at hj
  obtain ⟨rd, hrd, rfl⟩ := hj
  have hmem := List.mem_filter.mp hrd
  exact ⟨ra, hra, rd, hmem.1, of_decide_eq_true hmem.2, rfl⟩

theorem countP_block_pos (d : List RawRecord) (ra : RawRecord) (i : List Nat)
    (h : ra.identifier = some i) :
    ((d.filter (fun rd => decide (rd.identifier = ra.identifier))).map
        (fun rd => ({ identifier := ra.identifier, status_algar := ra.status,
                      status_ag := rd.status } : JoinedRecord))).countP
      (fun j => decide (j.identifier = some i))
      = d.countP (fun r => decide (r.identifier = some i)) := by
  rw [List.countP_map]
  have hcomp : ((fun j : JoinedRecord => decide (j.identifier = some i)) ∘
      fun rd : RawRecord =>
        ({ identifier := ra.identifier, status_algar := ra.status,
           status_ag := rd.status } : JoinedRecord))
      = fun _ : RawRecord => decide (ra.identifier = some i) := rfl
  rw [hcomp, h]
  simp [List.countP_eq_length_filter]

theorem countP_block_neg (d : List RawRecord) (ra : RawRecord) (i : List Nat)
    (h : ¬ ra.identifier = some i) :
    ((d.filter (fun rd => decide (rd.identifier = ra.identifier))).map
        (fun rd => ({ identifier := ra.identifier, status_algar := ra.status,
                      status_ag := rd.status } : JoinedRecord))).countP
      (fun j => decide (j.identifier = some i)) = 0 := by
  rw [List.countP_map, List.countP_eq_zero]
  intro x hx
  simp [h]

theorem countP_mergeInner (a d : List RawRecord) (i : List Nat) :
    (mergeInner a d).countP (fun j => decide (j.identifier = some i))
      = a.countP (fun r => decide (r.identifier = some i))
        * d.countP (fun r => decide (r.identifier = some i)) := by
  induction a with
  | nil => simp [mergeInner]
  | cons ra a ih =>
    rw [mergeInner_cons, List.countP_append, ih, List.countP_cons]
    by_cases h : ra.identifier = some i
    · rw [countP_block_pos d ra i h]
      simp only [h]
      simp
      ring
    · rw [countP_block_neg d ra i h]
      simp [h]

/-! ### Facts about the classification -/

theorem length_partition (A B : List RawRecord) :
    (processar_e_comparar A B).1.length + (processar_e_comparar A B).2.length
      = (joinedValid A B).length := by
  unfold processar_e_comparar
  simp only [List.length_map]
  exact (List.length_eq_length_filter_add (fun j => divergiu j)).symm

theorem output_from_joinedValid {A B : List RawRecord} {x : OutRecord}
    (h : x ∈ (processar_e_comparar A B).1 ∨ x ∈ (processar_e_comparar A B).2) :
    ∃ k ∈ joinedValid A B, toOut k = x := by
  cases h with
  | inl h1 =>
    unfold processar_e_comparar at h1
    simp only [List.mem_map, List.mem_filter] at h1
    obtain ⟨k, ⟨hk, _⟩, hx⟩ := h1
    exact ⟨k, hk, hx⟩
  | inr h2 =>
    unfold processar_e_comparar at h2
    simp only [List.mem_map, List.mem_filter] at h2
    obtain ⟨k, ⟨hk, _⟩, hx⟩ := h2
    exact ⟨k, hk, hx⟩

theorem mem_dv_not_mem_eq {A B : List RawRecord} {x : OutRecord}
    (h1 : x ∈ (processar_e_comparar A B).1) : x ∉ (processar_e_comparar A B).2 := by
  intro h2
  unfold processar_e_comparar at h1 h2
  simp only [List.mem_map, List.mem_filter] at h1 h2
  obtain ⟨j1, ⟨hj1, hd1⟩, hx1⟩ := h1
  obtain ⟨j2, ⟨hj2, hd2⟩, hx2⟩ := h2
  simp only [divergiu, decide_eq_true_eq] at hd1
  have heq : replaceFechado (statusAlgarVal j2) = replaceFechado (statusAgVal j2) := by
    cases hb : divergiu j2
    · simpa [divergiu, decide_eq_true_eq] using hb
    · rw [hb] at hd2; simp at hd2
  apply hd1
  have e11 : statusAlgarVal j1 = x.status_algar := congrArg OutRecord.status_algar hx1
  have e12 : statusAgVal j1 = x.status_ag := congrArg OutRecord.status_ag hx1
  have e21 : statusAlgarVal j2 = x.status_algar := congrArg OutRecord.status_algar hx2
  have e22 : statusAgVal j2 = x.status_ag := congrArg OutRecord.status_ag hx2
  rw [e11, e12, ← e21, ← e22]
  exact heq

theorem mem_eq_iff {A B : List RawRecord} {j : JoinedRecord} (hj : j ∈ joinedValid A B) :
    toOut j ∈ (processar_e_comparar A B).2
      ↔ replaceFechado (statusAlgarVal j) = replaceFechado (statusAgVal j) := by
  constructor
  · intro hmem
    unfold processar_e_comparar at hmem
    simp only [List.mem_map, List.mem_filter] at hmem
    obtain ⟨k, ⟨_, hdk⟩, hxk⟩ := hmem
    have heqk : replaceFechado (statusAlgarVal k) = replaceFechado (statusAgVal k) := by
      cases hb : divergiu k
      · simpa [divergiu, decide_eq_true_eq] using hb
      · rw [hb] at hdk; simp at hdk
    have e1 : statusAlgarVal k = statusAlgarVal j := congrArg OutRecord.status_algar hxk
    have e2 : statusAgVal k = statusAgVal j := congrArg OutRecord.status_ag hxk
    rw [← e1, ← e2]
    exact heqk
  · intro h
    unfold processar_e_comparar
    simp only [List.mem_map, List.mem_filter]
    exact ⟨j, ⟨hj, by simp [divergiu, h]⟩, rfl⟩

theorem mem_dv_iff {A B : List RawRecord} {j : JoinedRecord} (hj : j ∈ joinedValid A B) :
    toOut j ∈ (processar_e_comparar A B).1
      ↔ replaceFechado (statusAlgarVal j) ≠ replaceFechado (statusAgVal j) := by
  constructor
  · intro hmem
    unfold processar_e_comparar at hmem
    simp only [List.mem_map, List.mem_filter] at hmem
    obtain ⟨k, ⟨_, hdk⟩, hxk⟩ := hmem
    simp only [divergiu, decide_eq_true_eq] at hdk
    have e1 : statusAlgarVal k = statusAlgarVal j := congrArg OutRecord.status_algar hxk
    have e2 : statusAgVal k = statusAgVal j := congrArg OutRecord.status_ag hxk
    rw [← e1, ← e2]
    exact hdk
  · intro h
    unfold processar_e_comparar
    simp only [List.mem_map, List.mem_filter]
    exact ⟨j, ⟨hj, by simp [divergiu, h]⟩, rfl⟩

theorem mem_joinedValid_sub {A B : List RawRecord} {j : JoinedRecord}
    (h : j ∈ joinedValid A B) : j ∈ mergeInner (limpar A) (limpar B) := by
  unfold joinedValid dropnaStatus at h
  exact (List.mem_filter.mp h).1

/-- The property the words of the partition claim describe: a status cell
that is present and a non-empty string.  Written from the claim wording, to
be compared with what the code does (`dropnaStatus` keeps every present
cell, empty or not). -/
def specNonEmptyStatus (o : Option (List Nat)) : Bool :=
  match o with
  | some s => decide (s ≠ [])
  | none => false

/-- The number of inner-joined records with a non-empty status on both
sides, as the partition claim words it. -/
def specNonEmptyJoinCount (dfAlgar dfData : List RawRecord) : Nat :=
  ((mergeInner (limpar dfAlgar) (limpar dfData)).filter
    (fun j => specNonEmptyStatus j.status_algar && specNonEmptyStatus j.status_ag)).length

/-! ### The claims -/

/-- C1: the classification compares statuses only after rewriting the full
value FECHADO to INSTALADO on both sides independently, while both outcome
sets carry the pre-rewrite (stripped, uppercased) status strings: a merged
record lands in the equal frame exactly when the rewritten statuses agree,
in the divergent frame exactly when they differ, and the concrete record
with carrier status FECHADO and internal status INSTALADO classifies EQUAL
with its original strings reported. -/
theorem C1_equivalence_rule :
    (∀ (A B : List RawRecord) (j : JoinedRecord), j ∈ joinedValid A B →
      ((toOut j ∈ (processar_e_comparar A B).2
          ↔ replaceFechado (statusAlgarVal j) = replaceFechado (statusAgVal j))
       ∧ (toOut j ∈ (processar_e_comparar A B).1
          ↔ replaceFechado (statusAlgarVal j) ≠ replaceFechado (statusAgVal j))))
    ∧ processar_e_comparar
        [{ identifier := some (encode ("1")), status := some (encode ("FECHADO")) }]
        [{ identifier := some (encode ("1")), status := some (encode ("INSTALADO")) }]
      = ([], [{ identifier := encode ("1"), status_algar := encode ("FECHADO"),
                status_ag := encode ("INSTALADO") }]) :=
  ⟨fun _ _ _ hj => ⟨mem_eq_iff hj, mem_dv_iff hj⟩, by decide⟩

theorem C1_witness :
    ((⟨some (encode ("1")), some FECHADO, some INSTALADO⟩ : JoinedRecord)
      ∈ joinedValid
          [{ identifier := some (encode ("1")), status := some (encode ("FECHADO")) }]
          [{ identifier := some (encode ("1")), status := some (encode ("INSTALADO")) }])
    ∧ (toOut (⟨some (encode ("1")), some FECHADO, some INSTALADO⟩ : JoinedRecord)
        ∈ (processar_e_comparar
            [{ identifier := some (encode ("1")), status := some (encode ("FECHADO")) }]
            [{ identifier := some (encode ("1")), status := some (encode ("INSTALADO")) }]).2
       ↔ replaceFechado
            (statusAlgarVal (⟨some (encode ("1")), some FECHADO, some INSTALADO⟩ : JoinedRecord))
          = replaceFechado
            (statusAgVal (⟨some (encode ("1")), some FECHADO, some INSTALADO⟩ : JoinedRecord))) :=
  ⟨by decide, (C1_equivalence_rule.1 _ _ _ (by decide)).1⟩

/-- C2 fails on the code as stated: with a whitespace-only carrier status the
joined record is still classified (the code only removes MISSING statuses),
so the union of the two outcome sets is larger than the number of
inner-joined records with non-empty statuses on both sides. -/
theorem C2_counterexample :
    ¬ ((processar_e_comparar
          [{ identifier := some (encode ("1")), status := some (encode (" ")) }]
          [{ identifier := some (encode ("1")), status := some (encode ("OK")) }]).1.length
        + (processar_e_comparar
          [{ identifier := some (encode ("1")), status := some (encode (" ")) }]
          [{ identifier := some (encode ("1")), status := some (encode ("OK")) }]).2.length
        = specNonEmptyJoinCount
            [{ identifier := some (encode ("1")), status := some (encode (" ")) }]
            [{ identifier := some (encode ("1")), status := some (encode ("OK")) }]) := by
  decide

/-- C2 (amended): the comparison partitions the cleaned inner join into two
disjoint outcome sets whose sizes add up to the number of inner-joined
records with a PRESENT (non-missing) status on both sides; a
present-but-empty status string is classified, not dropped. -/
theorem C2_partition : ∀ A B : List RawRecord,
    (processar_e_comparar A B).1.length + (processar_e_comparar A B).2.length
      = (joinedValid A B).length
    ∧ ∀ x, x ∈ (processar_e_comparar A B).1 → x ∉ (processar_e_comparar A B).2 :=
  fun A B => ⟨length_partition A B, fun _ => mem_dv_not_mem_eq⟩

theorem C2_witness :
    ((⟨encode ("1"), encode ("A"), encode ("B")⟩ : OutRecord)
      ∈ (processar_e_comparar
          [{ identifier := some (encode ("1")), status := some (encode ("A")) }]
          [{ identifier := some (encode ("1")), status := some (encode ("B")) }]).1)
    ∧ (⟨encode ("1"), encode ("A"), encode ("B")⟩ : OutRecord)
      ∉ (processar_e_comparar
          [{ identifier := some (encode ("1")), status := some (encode ("A")) }]
          [{ identifier := some (encode ("1")), status := some (encode ("B")) }]).2 :=
  ⟨by decide, (C2_partition _ _).2 _ (by decide)⟩

/-- C3 fails on the code as stated: a status that is empty after trimming and
uppercasing (here a whitespace-only carrier status) is NOT excluded: the
joined record is classified and appears in the divergent outcome set. -/
theorem C3_counterexample :
    (⟨encode ("1"), [], encode ("OK")⟩ : OutRecord)
      ∈ (processar_e_comparar
          [{ identifier := some (encode ("1")), status := some (encode (" ")) }]
          [{ identifier := some (encode ("1")), status := some (encode ("OK")) }]).1
    ∧ normalizeCell (encode (" ")) = [] := by
  decide

/-- C3 (amended): every joined record in which either status value is MISSING
(a NaN cell) is excluded from classification: it does not survive the status
filter, and every record of either outcome set originates from a joined
record that did survive it.  Status values that are present but empty after
normalization are classified like any other value, not excluded. -/
theorem C3_missing_status_excluded :
    ∀ (A B : List RawRecord) (j : JoinedRecord),
    j ∈ mergeInner (limpar A) (limpar B) →
    (j.status_algar = none ∨ j.status_ag = none) →
    j ∉ joinedValid A B
    ∧ ∀ x, (x ∈ (processar_e_comparar A B).1 ∨ x ∈ (processar_e_comparar A B).2) →
        ∃ k ∈ joinedValid A B, toOut k = x := by
  intro A B j _ hnone
  constructor
  · intro hval
    unfold joinedValid dropnaStatus at hval
    have hfil := (List.mem_filter.mp hval).2
    cases hnone with
    | inl h => rw [h] at hfil; simp at hfil
    | inr h => rw [h] at hfil; simp at hfil
  · exact fun _ hx => output_from_joinedValid hx

theorem C3_witness :
    ((⟨some (encode ("1")), none, some (encode ("OK"))⟩ : JoinedRecord)
      ∈ mergeInner
          (limpar [{ identifier := some (encode ("1")), status := none }])
          (limpar [{ identifier := some (encode ("1")), status := some (encode ("OK")) }]))
    ∧ (⟨some (encode ("1")), none, some (encode ("OK"))⟩ : JoinedRecord)
      ∉ joinedValid [{ identifier := some (encode ("1")), status := none }]
          [{ identifier := some (encode ("1")), status := some (encode ("OK")) }] :=
  ⟨by decide,
   (C3_missing_status_excluded _ _ _ (by decide) (Or.inl rfl)).1⟩

/-- C4 fails on the code as stated: `dropna` only removes MISSING identifiers,
so a row whose identifier is the empty string survives, joins another
empty-identifier row, and contributes a record to the equal outcome set. -/
theorem C4_counterexample :
    (processar_e_comparar
        [{ identifier := some ([] : List Nat), status := some (encode ("OK")) }]
        [{ identifier := some ([] : List Nat), status := some (encode ("OK")) }]).2
      = [(⟨[], encode ("OK"), encode ("OK")⟩ : OutRecord)] := by
  decide

/-- C4 (amended): rows whose identifier is MISSING (a NaN cell) are dropped
before comparison — removing them from either input changes nothing — while
rows with an empty-string identifier are kept and may join. -/
theorem C4_missing_identifier_dropped : ∀ A B : List RawRecord,
    processar_e_comparar (A.filter (fun r => r.identifier.isSome)) B
      = processar_e_comparar A B
    ∧ processar_e_comparar A (B.filter (fun r => r.identifier.isSome))
      = processar_e_comparar A B := by
  intro A B
  constructor
  · unfold processar_e_comparar joinedValid
    rw [limpar_filter_isSome]
  · unfold processar_e_comparar joinedValid
    rw [limpar_filter_isSome]

theorem C4_witness :
    processar_e_comparar
        ([{ identifier := none, status := some (encode ("OK")) },
          { identifier := some (encode ("1")), status := some (encode ("OK")) }].filter
          (fun r => r.identifier.isSome))
        [{ identifier := some (encode ("1")), status := some (encode ("OK")) }]
      = processar_e_comparar
          [{ identifier := none, status := some (encode ("OK")) },
           { identifier := some (encode ("1")), status := some (encode ("OK")) }]
          [{ identifier := some (encode ("1")), status := some (encode ("OK")) }] :=
  (C4_missing_identifier_dropped _ _).1

/-- C5: identifier matching is insensitive to surrounding whitespace and to
letter case: identifiers with equal normal forms always join, and the normal
forms of the strings " abc123 " and "ABC123" coincide, because identifiers
are trimmed and uppercased before the merge. -/
theorem C5_identifier_insensitive :
    (∀ s t ca cg : List Nat, cleanIdent s = cleanIdent t →
      (mergeInner (limpar [{ identifier := some s, status := some ca }])
                  (limpar [{ identifier := some t, status := some cg }])).length = 1)
    ∧ cleanIdent (encode (" abc123 ")) = cleanIdent (encode ("ABC123")) := by
  constructor
  · intro s t ca cg h
    simp [limpar, dropnaProtocolo, cleanRecord, mergeInner, h]
  · decide

theorem C5_witness :
    cleanIdent (encode (" abc123 ")) = cleanIdent (encode ("ABC123"))
    ∧ (mergeInner
        (limpar [{ identifier := some (encode (" abc123 ")), status := some (encode ("OK")) }])
        (limpar [{ identifier := some (encode ("ABC123")), status := some (encode ("OK")) }])).length
      = 1 :=
  ⟨by decide, C5_identifier_insensitive.1 _ _ _ _ (by decide)⟩

/-- C6: the join is a strict inner join: a join key absent from either
cleaned input contributes no record to either outcome set. -/
theorem C6_inner_join : ∀ (A B : List RawRecord) (i : List Nat),
    ((∀ r ∈ limpar A, r.identifier ≠ some i) ∨ (∀ r ∈ limpar B, r.identifier ≠ some i)) →
    (∀ o ∈ (processar_e_comparar A B).1, o.identifier ≠ i)
    ∧ (∀ o ∈ (processar_e_comparar A B).2, o.identifier ≠ i) := by
  intro A B i hside
  have key : ∀ o, (o ∈ (processar_e_comparar A B).1 ∨ o ∈ (processar_e_comparar A B).2) →
      o.identifier ≠ i := by
    intro o ho hoi
    obtain ⟨k, hk, hok⟩ := output_from_joinedValid ho
    obtain ⟨ra, hra, rd, hrd, hid, hkeq⟩ := mem_mergeInner (mem_joinedValid_sub hk)
    obtain ⟨v, hv⟩ := Option.isSome_iff_exists.mp (mem_limpar_isSome hra)
    have hki : k.identifier = some v := by rw [hkeq]; exact hv
    have hgd : k.identifier.getD [] = o.identifier := congrArg OutRecord.identifier hok
    have hvi : v = i := by
      rw [hki, hoi] at hgd
      simpa using hgd
    cases hside with
    | inl hA => exact hA ra hra (by rw [hv, hvi])
    | inr hB => exact hB rd hrd (by rw [hid, hv, hvi])
  exact ⟨fun o ho => key o (Or.inl ho), fun o ho => key o (Or.inr ho)⟩

theorem C6_witness :
    (∀ r ∈ limpar [{ identifier := some (encode ("2")), status := some (encode ("OK")) }],
        r.identifier ≠ some (encode ("1")))
    ∧ (∀ o ∈ (processar_e_comparar
          [{ identifier := some (encode ("1")), status := some (encode ("OK")) }]
          [{ identifier := some (encode ("2")), status := some (encode ("OK")) }]).2,
        o.identifier ≠ encode ("1")) :=
  ⟨by decide, (C6_inner_join _ _ _ (Or.inr (by decide))).2⟩

/-- C7: the comparison is deterministic and idempotent: a second run on the
frames exactly as the first run left them (the inputs are mutated in place)
reproduces the same mutated frames and the same divergent and equal outcome
sets, hence the same counts. -/
theorem C7_idempotent : ∀ A B : List RawRecord,
    processar_e_comparar_mut (processar_e_comparar_mut A B).1.1
        (processar_e_comparar_mut A B).1.2
      = processar_e_comparar_mut A B := by
  intro A B
  show processar_e_comparar_mut (limpar A) (limpar B) = processar_e_comparar_mut A B
  unfold processar_e_comparar_mut processar_e_comparar joinedValid
  rw [limpar_idem, limpar_idem]

theorem C7_witness :
    processar_e_comparar_mut
        (processar_e_comparar_mut
          [{ identifier := some (encode (" a ")), status := some (encode ("ok")) }] []).1.1
        (processar_e_comparar_mut
          [{ identifier := some (encode (" a ")), status := some (encode ("ok")) }] []).1.2
      = processar_e_comparar_mut
          [{ identifier := some (encode (" a ")), status := some (encode ("ok")) }] [] :=
  C7_idempotent _ _

/-- C8: if either parse fails, loading yields the error descriptor with the
explanatory message and the low-level parser error appended to the detail
preamble, and returns no partial record set: both outputs are absent
together, and when no error is reported both outputs are present. -/
theorem C8_load_failure :
    ∀ (rc : Except (List Nat) (List CsvRow)) (rx : Except (List Nat) (List XlsxRow)),
    ((carregar_dados_upload rc rx).2.1.isSome ↔ (carregar_dados_upload rc rx).2.2.isSome)
    ∧ (∀ e, rc = Except.error e →
        carregar_dados_upload rc rx
          = (some { message := MSG_ERRO, detail := MSG_DETALHE ++ e }, (none, none)))
    ∧ (∀ rows e, rc = Except.ok rows → rx = Except.error e →
        carregar_dados_upload rc rx
          = (some { message := MSG_ERRO, detail := MSG_DETALHE ++ e }, (none, none)))
    ∧ ((carregar_dados_upload rc rx).1 = none →
        ∃ a b, (carregar_dados_upload rc rx).2 = (some a, some b)) := by
  intro rc rx
  cases rc with
  | error e => simp [carregar_dados_upload]
  | ok rows =>
    cases rx with
    | error e => simp [carregar_dados_upload]
    | ok xrows => simp [carregar_dados_upload]

theorem C8_witness :
    (Except.error (encode ("falha de leitura")) : Except (List Nat) (List CsvRow))
        = Except.error (encode ("falha de leitura"))
    ∧ carregar_dados_upload
        (Except.error (encode ("falha de leitura"))) (Except.ok ([] : List XlsxRow))
      = (some { message := MSG_ERRO, detail := MSG_DETALHE ++ encode ("falha de leitura") },
         (none, none)) :=
  ⟨rfl, (C8_load_failure _ _).2.1 _ rfl⟩

/-- C9: the comparator mutates its inputs in place: after a call the caller's
frames hold the cleaned data — rows with missing identifiers deleted and all
textual cells overwritten with their trimmed, uppercased values — so the
inputs passed to the comparison are not preserved across a call. -/
theorem C9_mutation :
    (∀ A B : List RawRecord, (processar_e_comparar_mut A B).1 = (limpar A, limpar B))
    ∧ (processar_e_comparar_mut
        [{ identifier := some (encode (" a1 ")), status := some (encode (" fechado ")) },
         { identifier := none, status := some (encode ("x")) }] []).1.1
      = [{ identifier := some (encode ("A1")), status := some (encode ("FECHADO")) }]
    ∧ (processar_e_comparar_mut
        [{ identifier := some (encode (" a1 ")), status := some (encode (" fechado ")) },
         { identifier := none, status := some (encode ("x")) }] []).1.1
      ≠ [{ identifier := some (encode (" a1 ")), status := some (encode (" fechado ")) },
         { identifier := none, status := some (encode ("x")) }] :=
  ⟨fun _ _ => rfl, by decide, by decide⟩

theorem C9_witness :
    (processar_e_comparar_mut [{ identifier := none, status := some (encode ("x")) }] []).1
      = (limpar [{ identifier := none, status := some (encode ("x")) }], limpar []) :=
  C9_mutation.1 _ _

/-- C10: a join key occurring m times on the left and n times on the right of
the merge yields exactly m times n joined records, each classified
independently, so the outcome counts together can exceed the row count of
either input (2 and 3 rows of one shared key give 6 classified records). -/
theorem C10_multiplicity :
    (∀ (a d : List RawRecord) (i : List Nat),
      (mergeInner a d).countP (fun j => decide (j.identifier = some i))
        = a.countP (fun r => decide (r.identifier = some i))
          * d.countP (fun r => decide (r.identifier = some i)))
    ∧ (processar_e_comparar
        [{ identifier := some (encode ("7")), status := some (encode ("OK")) },
         { identifier := some (encode ("7")), status := some (encode ("OK")) }]
        [{ identifier := some (encode ("7")), status := some (encode ("OK")) },
         { identifier := some (encode ("7")), status := some (encode ("OK")) },
         { identifier := some (encode ("7")), status := some (encode ("OK")) }]).2.length = 6 :=
  ⟨countP_mergeInner, by decide⟩

theorem C10_witness :
    (mergeInner
        [{ identifier := some (encode ("7")), status := some (encode ("OK")) },
         { identifier := some (encode ("7")), status := some (encode ("OK")) }]
        [{ identifier := some (encode ("7")), status := some (encode ("OK")) },
         { identifier := some (encode ("7")), status := some (encode ("OK")) },
         { identifier := some (encode ("7")), status := some (encode ("OK")) }]).countP
        (fun j => decide (j.identifier = some (encode ("7"))))
      = 6 := by
  rw [C10_multiplicity.1]
  decide

end AnaliseProtocolos
